import Mathlib

/-!
Shallow embedding of `src/main.js` from the Scotts Ice Cream landing page.

DOM primitives (querySelectorAll results, closest lookups, media queries)
are modelled as explicit inputs.  A fallible browser call is modelled by an
`Option String` argument giving the message of the exception it raises,
`none` meaning the call succeeds.  A `try`/`catch` block of the source is
translated to a `match` on an `Except` value whose handler branch mirrors
the catch body; console output is collected in a list of log entries.
-/

namespace Landing

/-- A console log entry, mirroring console.error / console.warn / console.log. -/
inductive LogEntry where
  | error (msg : String)
  | warn (msg : String)
  | info (msg : String)
deriving DecidableEq

/-- The inline style fields that main.js touches on an element. -/
structure Style where
  opacity : String := ""
  transform : String := ""
  transition : String := ""
deriving DecidableEq

/-- A DOM element: an identity (standing for JS reference identity), its
class list and its inline style. -/
structure Elem where
  eid : Nat := 0
  classes : List String := []
  style : Style := {}
deriving DecidableEq

/-- classList.contains: DOMTokenList membership. -/
def classContains (l : List String) (c : String) : Bool :=
  l.any (fun x => x == c)

/-- classList.add: appends the token unless already present (set semantics). -/
def classAdd (l : List String) (c : String) : List String :=
  if classContains l c then l else l ++ [c]

/-- classList.remove: drops every occurrence of the token. -/
def classRemove (l : List String) (c : String) : List String :=
  l.filter (fun x => !(x == c))

/-- classList.toggle: removes the token when present, appends it otherwise. -/
def classToggle (l : List String) (c : String) : List String :=
  if classContains l c then classRemove l c else l ++ [c]

/-- The CONFIG record of main.js (lines 21-26). -/
structure Config where
  INTERSECTION_THRESHOLD : ℚ
  STAGGER_DELAY : Int
  ANIMATION_CLASS : String
  REDUCED_MOTION_CLASS : String
deriving DecidableEq

/-- CONFIG values from main.js. -/
def CONFIG : Config :=
  { INTERSECTION_THRESHOLD := 7 / 10
    STAGGER_DELAY := 125
    ANIMATION_CLASS := "reveal-active"
    REDUCED_MOTION_CLASS := "reduced-motion" }

/-- Feature support status, the record returned by checkBrowserSupport. -/
structure BrowserSupport where
  intersectionObserver : Bool
  requestAnimationFrame : Bool
  matchMedia : Bool
  querySelectorAll : Bool
deriving DecidableEq

/-- A fallible browser call: either raises the given exception message or
returns the given value. -/
def jsTry {α : Type} (fail : Option String) (v : α) : Except String α :=
  match fail with
  | some m => Except.error m
  | none => Except.ok v

/-- Element shown by the no-IntersectionObserver fallback and by reveals:
style.opacity set to 1, style.transform set to translateY(0)
(main.js lines 113-116 and 200-201). -/
def showStyle (e : Elem) : Elem :=
  { e with style := { e.style with opacity := "1", transform := "translateY(0)" } }

/-- Hidden initial style applied before observing when motion is allowed
(main.js lines 125-129). -/
def hideStyle (e : Elem) : Elem :=
  { e with style :=
    { e.style with
      opacity := "0"
      transform := "translateY(30px)"
      transition := "opacity 0.6s ease-out, transform 0.6s ease-out" } }

/-- Observer options as built on main.js lines 133-137 (root: null omitted,
threshold is a rational standing for the JS number 0.7). -/
structure ObserverOptions where
  rootMargin : String
  threshold : ℚ
deriving DecidableEq

/-- Result of initScrollAnimations: mutated elements, the installed observer
options when one was created, and console output. -/
structure ScrollAnimationsResult where
  elements : List Elem
  observer : Option ObserverOptions
  log : List LogEntry
deriving DecidableEq

/-- initScrollAnimations (main.js lines 106-156).  The animated elements
found by querySelectorAll are an input; observerFail models the only
fallible call of the try body, the IntersectionObserver constructor.  The
fallback branch for missing IntersectionObserver support (lines 109-118)
runs outside the try, as in the source. -/
def initScrollAnimations (support : BrowserSupport) (prefersReducedMotion : Bool)
    (animatedElements : List Elem) (observerFail : Option String) :
    Except String ScrollAnimationsResult :=
  if !support.intersectionObserver then
    Except.ok
      { elements := animatedElements.map showStyle
        observer := none
        log := [LogEntry.warn "IntersectionObserver not supported. Scroll animations disabled."] }
  else
    let styled :=
      if !prefersReducedMotion then animatedElements.map hideStyle else animatedElements
    match jsTry observerFail
        ({ rootMargin := "0px", threshold := CONFIG.INTERSECTION_THRESHOLD } : ObserverOptions) with
    | Except.ok opts =>
        Except.ok { elements := styled, observer := some opts, log := [] }
    | Except.error m =>
        Except.ok
          { elements := styled
            observer := none
            log := [LogEntry.error ("Error initializing scroll animations: " ++ m)] }

/-- Claim C1: when IntersectionObserver is unsupported, initScrollAnimations
sets opacity 1 and translateY(0) on every element matching the animated
selector and installs no observer. -/
theorem initScrollAnimations_no_observer_fallback
    (rafS mmS qsaS : Bool) (prefersReducedMotion : Bool)
    (animatedElements : List Elem) (observerFail : Option String) (r : ScrollAnimationsResult)
    (hr : initScrollAnimations ⟨false, rafS, mmS, qsaS⟩ prefersReducedMotion
        animatedElements observerFail = Except.ok r) :
    (∀ e ∈ r.elements, e.style.opacity = "1" ∧ e.style.transform = "translateY(0)") ∧
      r.observer = none := by
  simp only [initScrollAnimations, Bool.not_false, if_pos] at hr
  cases hr
  refine ⟨?_, rfl⟩
  intro e he
  rcases List.mem_map.mp he with ⟨x, _, rfl⟩
  exact ⟨rfl, rfl⟩

/-- Witness for C1 at a concrete page state: the single card is shown and the
result carries no observer. -/
theorem initScrollAnimations_no_observer_fallback_witness :
    (showStyle { eid := 1 } : Elem).style.opacity = "1" ∧
    (showStyle { eid := 1 } : Elem).style.transform = "translateY(0)" ∧
    (⟨[showStyle { eid := 1 }], none,
      [LogEntry.warn "IntersectionObserver not supported. Scroll animations disabled."]⟩ :
      ScrollAnimationsResult).observer = none := by
  have h := initScrollAnimations_no_observer_fallback true true true false
    [{ eid := 1 }] none _ rfl
  have hmem := h.1 (showStyle { eid := 1 }) (List.mem_singleton.mpr rfl)
  exact ⟨hmem.1, hmem.2, h.2⟩

/-- When a reveal runs: immediately, or through setTimeout after ms
milliseconds (main.js lines 179-191). -/
inductive RevealAction where
  | immediate
  | delayed (ms : Int)
deriving DecidableEq

/-- The reveal effect applied to an intersecting element: opacity 1,
translateY(0), and the animation class added (main.js lines 165-167,
182-184, 187-189, 193-195; identical with or without requestAnimationFrame). -/
def reveal (e : Elem) : Elem :=
  { e with
    style := { e.style with opacity := "1", transform := "translateY(0)" }
    classes := classAdd e.classes CONFIG.ANIMATION_CLASS }

/-- Array.prototype.indexOf over the container children, comparing by element
identity; -1 when absent (main.js line 176). -/
def jsIndexOf (siblings : List Elem) (target : Elem) : Int :=
  match siblings.findIdx? (fun s => s.eid == target.eid) with
  | some i => Int.ofNat i
  | none => -1

/-- handleIntersection (main.js lines 162-203).  closestContainer is the
result of target.closest on the grid selector: some children when a
container is found (its child list, in order), none otherwise.  closestFail
models that lookup raising an exception, the first fallible call of the try
body; the catch branch then shows the element without adding the class
(lines 197-202). -/
def handleIntersection (prefersReducedMotion : Bool)
    (closestContainer : Option (List Elem)) (target : Elem) (closestFail : Option String) :
    Except String (Elem × RevealAction × List LogEntry) :=
  if prefersReducedMotion then
    Except.ok (reveal target, RevealAction.immediate, [])
  else
    match jsTry closestFail closestContainer with
    | Except.ok (some siblings) =>
        Except.ok (reveal target,
          RevealAction.delayed (jsIndexOf siblings target * CONFIG.STAGGER_DELAY), [])
    | Except.ok none =>
        Except.ok (reveal target, RevealAction.immediate, [])
    | Except.error m =>
        Except.ok
          ({ target with style := { target.style with opacity := "1", transform := "translateY(0)" } },
            RevealAction.immediate,
            [LogEntry.error ("Error handling intersection: " ++ m)])

/-- One entry passed to the IntersectionObserver callback. -/
structure ObserverEntry where
  target : Elem
  isIntersecting : Bool
deriving DecidableEq

/-- The targets for which the observer callback (main.js lines 139-145)
calls handleIntersection: exactly the intersecting entries whose target does
not yet carry the animation class. -/
def observerCallbackTargets (entries : List ObserverEntry) : List Elem :=
  (entries.filter
    (fun en => en.isIntersecting && !(classContains en.target.classes CONFIG.ANIMATION_CLASS))).map
    (fun en => en.target)

/-- The observer callback: runs handleIntersection on each qualifying target,
with closestOf giving each target.closest lookup result. -/
def observerCallback (prefersReducedMotion : Bool)
    (closestOf : Elem → Option (List Elem)) (entries : List ObserverEntry) :
    List (Elem × Except String (Elem × RevealAction × List LogEntry)) :=
  (observerCallbackTargets entries).map
    (fun t => (t, handleIntersection prefersReducedMotion (closestOf t) t none))

/-- A span created for a single character of the headline
(main.js lines 231-244). -/
structure Span where
  textContent : String
  display : String
  opacity : String
  transform : String
  width : String
  ariaHidden : String
deriving DecidableEq

/-- The hero heading: its own text node content, its aria-label attribute and
its span children. -/
structure Heading where
  textContent : String
  ariaLabel : Option String := none
  children : List Span := []
deriving DecidableEq

/-- Span built for one character: inline-block, hidden, aria-hidden true,
width 0.3em for a space (main.js lines 231-244). -/
def mkLetterSpan (letter : Char) : Span :=
  { textContent := String.singleton letter
    display := "inline-block"
    opacity := "0"
    transform := "translateY(20px)"
    width := if letter = ' ' then "0.3em" else ""
    ariaHidden := "true" }

/-- The heading produced from original text T: own text cleared, aria-label
set to T, one span per character (main.js lines 224-246). -/
def kineticHeading (originalText : String) : Heading :=
  { textContent := ""
    ariaLabel := some originalText
    children := originalText.data.map mkLetterSpan }

/-- initKineticTypography (main.js lines 212-268).  heroTitle is the
querySelector result; queryFail models that first fallible call of the try
body raising.  The subsequent per-letter timers only change span styles, so
the structural result is the kineticHeading. -/
def initKineticTypography (prefersReducedMotion : Bool) (heroTitle : Option Heading)
    (queryFail : Option String) : Except String (Option Heading × List LogEntry) :=
  if prefersReducedMotion then
    Except.ok (heroTitle, [])
  else
    match jsTry queryFail heroTitle with
    | Except.ok none => Except.ok (none, [])
    | Except.ok (some h) => Except.ok (some (kineticHeading h.textContent), [])
    | Except.error m =>
        Except.ok (heroTitle, [LogEntry.error ("Error initializing kinetic typography: " ++ m)])

/-- Result of detectReducedMotion: the state flag, the classes added to
document.documentElement, and console output. -/
structure ReducedMotionResult where
  prefersReducedMotion : Bool
  docClasses : List String
  log : List LogEntry
deriving DecidableEq

/-- detectReducedMotion (main.js lines 68-97).  mediaMatches is the
prefers-reduced-motion media query result; mmFail models the matchMedia call
of the try body raising.  The support check runs before the try, as in the
source. -/
def detectReducedMotion (support : BrowserSupport) (mediaMatches : Bool)
    (mmFail : Option String) : Except String ReducedMotionResult :=
  if !support.matchMedia then
    Except.ok { prefersReducedMotion := false, docClasses := [], log := [] }
  else
    match jsTry mmFail mediaMatches with
    | Except.ok m =>
        Except.ok
          { prefersReducedMotion := m
            docClasses := if m then [CONFIG.REDUCED_MOTION_CLASS] else []
            log := [] }
    | Except.error m =>
        Except.ok
          { prefersReducedMotion := false
            docClasses := []
            log := [LogEntry.error ("Error detecting reduced motion preference: " ++ m)] }

/-- initSmoothScroll at load time (main.js lines 277-332): finds the anchor
links and attaches a click handler to each.  queryFail models the
querySelectorAll call of the try body raising.  Returns how many handlers
were attached. -/
def initSmoothScroll (anchorLinks : List (Option String)) (queryFail : Option String) :
    Except String (Nat × List LogEntry) :=
  match jsTry queryFail anchorLinks with
  | Except.ok links => Except.ok (links.length, [])
  | Except.error m =>
      Except.ok (0, [LogEntry.error ("Error initializing smooth scroll: " ++ m)])

/-- scrollIntoView behavior option. -/
inductive ScrollBehavior where
  | auto
  | smooth
deriving DecidableEq

/-- Observable outcome of one click on an anchor link. -/
structure ClickOutcome where
  defaultPrevented : Bool
  scrolledTo : Option (String × ScrollBehavior)
  focused : Option String
  pushedUrl : Option String
  locationHash : Option String
  log : List LogEntry
deriving DecidableEq

/-- Outcome of a click the handler ignores. -/
def clickNoChange : ClickOutcome :=
  { defaultPrevented := false
    scrolledTo := none
    focused := none
    pushedUrl := none
    locationHash := none
    log := [] }

/-- The click handler attached by initSmoothScroll (main.js lines 282-327).
docIds lists the element ids present in the document, so getElementById
succeeds exactly on members; scrollSupported models the scrollIntoView-in
check, historyPushState the window.history and pushState check, and
scrollFail the scrollIntoView call of the inner try raising (its catch sets
location.hash, line 324). -/
def smoothScrollClick (prefersReducedMotion : Bool) (docIds : List String)
    (scrollSupported : Bool) (historyPushState : Bool)
    (href : Option String) (scrollFail : Option String) : ClickOutcome :=
  match href with
  | none => clickNoChange
  | some h =>
    if h = "#" ∨ h.length ≤ 1 then clickNoChange
    else
      let targetId := h.drop 1
      if !(docIds.contains targetId) then clickNoChange
      else if scrollSupported then
        match jsTry scrollFail () with
        | Except.ok _ =>
            { defaultPrevented := true
              scrolledTo := some (targetId,
                if prefersReducedMotion then ScrollBehavior.auto else ScrollBehavior.smooth)
              focused := some targetId
              pushedUrl := if historyPushState then some h else none
              locationHash := none
              log := [] }
        | Except.error m =>
            { defaultPrevented := true
              scrolledTo := none
              focused := none
              pushedUrl := none
              locationHash := some h
              log := [LogEntry.error ("Error during smooth scroll: " ++ m)] }
      else
        { defaultPrevented := true
          scrolledTo := none
          focused := none
          pushedUrl := none
          locationHash := some h
          log := [] }

/-- initButtonMorphing at load time (main.js lines 341-384): finds the CTA
buttons and attaches listeners; queryFail models the querySelectorAll call
of the try body raising.  Returns how many buttons got listeners. -/
def initButtonMorphing (ctaButtons : List Elem) (queryFail : Option String) :
    Except String (Nat × List LogEntry) :=
  match jsTry queryFail ctaButtons with
  | Except.ok buttons => Except.ok (buttons.length, [])
  | Except.error m =>
      Except.ok (0, [LogEntry.error ("Error initializing button morphing: " ++ m)])

/-- The mutable state the mobile menu handlers read and write: the hamburger
buttons aria-expanded attribute and class list, the nav class list, and
whether the hamburger was focused by the escape handler. -/
structure MenuState where
  ariaExpanded : String
  buttonClasses : List String
  navClasses : List String
  focusedHamburger : Bool
deriving DecidableEq

/-- The state right after initMobileMenu set the initial ARIA attributes
(main.js lines 404-407) on the found button and nav. -/
def menuInitState (hamburgerButton mobileNav : Elem) : MenuState :=
  { ariaExpanded := "false"
    buttonClasses := hamburgerButton.classes
    navClasses := mobileNav.classes
    focusedHamburger := false }

/-- initMobileMenu at load time (main.js lines 394-449).  The two
querySelector results are inputs; queryFail models those calls raising.
Returns the menu state it sets up, or none when either element is missing. -/
def initMobileMenu (hamburgerButton mobileNav : Option Elem) (queryFail : Option String) :
    Except String (Option MenuState × List LogEntry) :=
  match jsTry queryFail (hamburgerButton, mobileNav) with
  | Except.ok (some hb, some nav) => Except.ok (some (menuInitState hb nav), [])
  | Except.ok _ => Except.ok (none, [])
  | Except.error m =>
      Except.ok (none, [LogEntry.error ("Error initializing mobile menu: " ++ m)])

/-- The hamburger click handler (main.js lines 410-421): flips aria-expanded
between the strings true and false and toggles the two classes. -/
def hamburgerClick (s : MenuState) : MenuState :=
  let isExpanded := s.ariaExpanded = "true"
  { s with
    ariaExpanded := if isExpanded then "false" else "true"
    buttonClasses := classToggle s.buttonClasses "active"
    navClasses := classToggle s.navClasses "mobile-nav-open" }

/-- The document keydown handler (main.js lines 424-435): on Escape with the
menu expanded, collapse it and focus the hamburger; otherwise do nothing. -/
def menuKeydown (key : String) (s : MenuState) : MenuState :=
  if key = "Escape" then
    if s.ariaExpanded = "true" then
      { s with
        ariaExpanded := "false"
        buttonClasses := classRemove s.buttonClasses "active"
        navClasses := classRemove s.navClasses "mobile-nav-open"
        focusedHamburger := true }
    else s
  else s

/-- The nav link click handler (main.js lines 439-445): always collapse. -/
def navLinkClick (s : MenuState) : MenuState :=
  { s with
    ariaExpanded := "false"
    buttonClasses := classRemove s.buttonClasses "active"
    navClasses := classRemove s.navClasses "mobile-nav-open" }

/-- One event hitting the handlers initMobileMenu installed. -/
inductive MenuEvent where
  | hamburger
  | keydown (key : String)
  | navLink
deriving DecidableEq

/-- Dispatch of a menu event to its handler. -/
def menuStep (s : MenuState) (e : MenuEvent) : MenuState :=
  match e with
  | MenuEvent.hamburger => hamburgerClick s
  | MenuEvent.keydown k => menuKeydown k s
  | MenuEvent.navLink => navLinkClick s

/-- The consistency property of C10: the aria-expanded attribute reads true
exactly when the button carries the active class and exactly when the nav
carries the open class. -/
def menuInvariant (s : MenuState) : Prop :=
  (s.ariaExpanded = "true" ↔ classContains s.buttonClasses "active" = true) ∧
    (s.ariaExpanded = "true" ↔ classContains s.navClasses "mobile-nav-open" = true)

/-- A focusable candidate inside the nav container. -/
structure FElem where
  fid : Nat
  tag : String
  href : Option String := none
  disabled : Bool := false
deriving DecidableEq

/-- The focusable selector of trapFocus (main.js lines 457-459). -/
def focusableSelector (e : FElem) : Bool :=
  (e.tag == "a" && e.href.isSome) || (e.tag == "button" && !e.disabled) ||
    e.tag == "textarea" || e.tag == "input" || e.tag == "select"

/-- The keydown handler trapFocus installs, closing over the first and last
focusable elements (main.js lines 465-484). -/
structure TrapHandler where
  firstElement : FElem
  lastElement : FElem
deriving DecidableEq

/-- trapFocus (main.js lines 455-488).  element is the container content in
document order; queryFail models the querySelectorAll call of the try body
raising.  Returns the installed handler, or none when nothing was installed. -/
def trapFocus (element : List FElem) (queryFail : Option String) :
    Except String (Option TrapHandler × List LogEntry) :=
  match jsTry queryFail (element.filter focusableSelector) with
  | Except.error m =>
      Except.ok (none, [LogEntry.error ("Error trapping focus: " ++ m)])
  | Except.ok [] => Except.ok (none, [])
  | Except.ok (f :: rest) =>
      Except.ok (some { firstElement := f, lastElement := (f :: rest).getLast (by simp) }, [])

/-- Observable outcome of one keydown on the trap handler. -/
structure TabOutcome where
  defaultPrevented : Bool
  focusMoved : Option Nat
deriving DecidableEq

/-- Outcome of a keydown the trap handler ignores. -/
def tabNoChange : TabOutcome :=
  { defaultPrevented := false, focusMoved := none }

/-- The keydown listener of trapFocus (main.js lines 468-484):
document.activeElement is identified by its fid. -/
def trapKeydown (handler : TrapHandler) (key : String) (shiftKey : Bool)
    (activeElement : Nat) : TabOutcome :=
  if key = "Tab" then
    if shiftKey then
      if activeElement = handler.firstElement.fid then
        { defaultPrevented := true, focusMoved := some handler.lastElement.fid }
      else tabNoChange
    else
      if activeElement = handler.lastElement.fid then
        { defaultPrevented := true, focusMoved := some handler.firstElement.fid }
      else tabNoChange
  else tabNoChange

/-- The page inputs init reads through the DOM. -/
structure PageInputs where
  mediaMatches : Bool
  animatedElements : List Elem
  heroTitle : Option Heading
  anchorLinks : List (Option String)
  ctaButtons : List Elem
  hamburgerButton : Option Elem
  mobileNav : Option Elem

/-- Which fallible browser call of each feature raises, and with what
message. -/
structure FailConfig where
  mmFail : Option String := none
  observerFail : Option String := none
  kineticFail : Option String := none
  smoothFail : Option String := none
  buttonFail : Option String := none
  menuFail : Option String := none

/-- The feature functions init calls, in call order (main.js lines 561-568). -/
def initFeatureOrder : List String :=
  ["detectReducedMotion", "initScrollAnimations", "initKineticTypography",
    "initSmoothScroll", "initButtonMorphing", "initMobileMenu"]

/-- init (main.js lines 547-577): runs every feature in order; a feature that
raised past its own try/catch would stop the chain here, caught only by the
outer catch of init. -/
def init (support : BrowserSupport) (page : PageInputs) (cfg : FailConfig) :
    Except String (List String × List LogEntry) :=
  if !support.querySelectorAll then
    Except.ok ([], [LogEntry.error "Browser does not support required features"])
  else do
    let rm ← detectReducedMotion support page.mediaMatches cfg.mmFail
    let sa ← initScrollAnimations support rm.prefersReducedMotion
      page.animatedElements cfg.observerFail
    let kt ← initKineticTypography rm.prefersReducedMotion page.heroTitle cfg.kineticFail
    let ss ← initSmoothScroll page.anchorLinks cfg.smoothFail
    let bm ← initButtonMorphing page.ctaButtons cfg.buttonFail
    let mm ← initMobileMenu page.hamburgerButton page.mobileNav cfg.menuFail
    Except.ok (initFeatureOrder, rm.log ++ sa.log ++ kt.2 ++ ss.2 ++ bm.2 ++ mm.2)

/-! Helper lemmas about the classList operations. -/

theorem classContains_classAdd_self (l : List String) (c : String) :
    classContains (classAdd l c) c = true := by
  unfold classAdd
  cases h : classContains l c
  · simp only [Bool.false_eq_true, if_false]
    simp [classContains, List.any_append]
  · simp [h]

theorem classContains_classRemove_self (l : List String) (c : String) :
    classContains (classRemove l c) c = false := by
  induction l with
  | nil => rfl
  | cons a l ih =>
    simp only [classRemove, List.filter_cons] at ih ⊢
    by_cases h : a = c
    · simp only [h, beq_self_eq_true, Bool.not_true, Bool.false_eq_true, if_false]
      exact ih
    · simp [h, classContains, ih]

theorem classContains_classToggle_self (l : List String) (c : String) :
    classContains (classToggle l c) c = !classContains l c := by
  unfold classToggle
  cases h : classContains l c
  · simp only [Bool.false_eq_true, if_false, Bool.not_false]
    simp [classContains, List.any_append]
  · simp only [if_pos, Bool.not_true]
    exact classContains_classRemove_self l c

/-- Claim C2: with the reduced-motion preference set at load time,
initScrollAnimations never applies the hidden initial style (the observed
elements pass through untouched, and the no-observer fallback shows them),
initKineticTypography returns without altering the headline, and
handleIntersection reveals the target immediately, with no delay. -/
theorem reducedMotion_shows_content
    (support : BrowserSupport) (animatedElements : List Elem)
    (observerFail queryFail closestFail : Option String)
    (heroTitle : Option Heading) (closestContainer : Option (List Elem)) (target : Elem) :
    (support.intersectionObserver = true →
      ∀ r, initScrollAnimations support true animatedElements observerFail = Except.ok r →
        r.elements = animatedElements) ∧
    (support.intersectionObserver = false →
      ∀ r, initScrollAnimations support true animatedElements observerFail = Except.ok r →
        ∀ e ∈ r.elements, e.style.opacity = "1" ∧ e.style.transform = "translateY(0)") ∧
    initKineticTypography true heroTitle queryFail = Except.ok (heroTitle, []) ∧
    handleIntersection true closestContainer target closestFail =
      Except.ok (reveal target, RevealAction.immediate, []) ∧
    (reveal target).style.opacity = "1" ∧
    (reveal target).style.transform = "translateY(0)" ∧
    classContains (reveal target).classes CONFIG.ANIMATION_CLASS = true := by
  refine ⟨?_, ?_, rfl, rfl, rfl, rfl, classContains_classAdd_self _ _⟩
  · intro hio r hr
    cases observerFail with
    | none =>
        simp only [initScrollAnimations, hio, Bool.not_true, Bool.false_eq_true, if_false,
          Bool.not_false, if_pos, jsTry] at hr
        cases hr
        rfl
    | some m =>
        simp only [initScrollAnimations, hio, Bool.not_true, Bool.false_eq_true, if_false,
          Bool.not_false, if_pos, jsTry] at hr
        cases hr
        rfl
  · intro hio r hr
    simp only [initScrollAnimations, hio, Bool.not_false, if_pos] at hr
    cases hr
    intro e he
    rcases List.mem_map.mp he with ⟨x, _, rfl⟩
    exact ⟨rfl, rfl⟩

/-- Witness for C2 with a concrete element, heading and container: the
observed card keeps its style, the heading is untouched and the reveal is
immediate. -/
theorem reducedMotion_shows_content_witness :
    (⟨[{ eid := 3 }], some ⟨"0px", 7 / 10⟩, []⟩ : ScrollAnimationsResult).elements =
      [{ eid := 3 }] ∧
    initKineticTypography true (some { textContent := "Hi" }) none =
      Except.ok (some { textContent := "Hi" }, []) ∧
    handleIntersection true (some []) { eid := 4 } none =
      Except.ok (reveal { eid := 4 }, RevealAction.immediate, []) := by
  have h := reducedMotion_shows_content ⟨true, true, true, true⟩ [{ eid := 3 }]
    none none none (some { textContent := "Hi" }) (some []) { eid := 4 }
  exact ⟨h.1 rfl _ rfl, h.2.2.1, h.2.2.2.1⟩

/-- Claim C6: an intersecting element inside a grid container is scheduled
index * 125 milliseconds out, where index is its position among the container
children; an element without such a container is revealed with no delay. -/
theorem handleIntersection_stagger
    (siblings : List Elem) (target : Elem) (i : Nat)
    (hidx : siblings.findIdx? (fun s => s.eid == target.eid) = some i) :
    handleIntersection false (some siblings) target none =
      Except.ok (reveal target, RevealAction.delayed (Int.ofNat i * 125), []) ∧
    CONFIG.STAGGER_DELAY = 125 ∧
    handleIntersection false none target none =
      Except.ok (reveal target, RevealAction.immediate, []) := by
  refine ⟨?_, rfl, rfl⟩
  simp [handleIntersection, jsTry, jsIndexOf, hidx, CONFIG]

/-- Witness for C6: the second card of a three-card grid gets a 250 ms delay. -/
theorem handleIntersection_stagger_witness :
    handleIntersection false (some [{ eid := 1 }, { eid := 2 }, { eid := 3 }]) { eid := 2 } none =
      Except.ok (reveal { eid := 2 }, RevealAction.delayed (Int.ofNat 1 * 125), []) ∧
    CONFIG.STAGGER_DELAY = 125 ∧
    handleIntersection false none { eid := 2 } none =
      Except.ok (reveal { eid := 2 }, RevealAction.immediate, []) :=
  handleIntersection_stagger [{ eid := 1 }, { eid := 2 }, { eid := 3 }] { eid := 2 } 1 (by decide)

/-- Claim C4: the observer callback passes to handleIntersection exactly the
intersecting entries whose target lacks the reveal class, every such call
shows the target and adds the class, and the observer was installed with
threshold 0.7. -/
theorem observerCallback_reveals
    (prm : Bool) (closestOf : Elem → Option (List Elem)) (entries : List ObserverEntry)
    (t : Elem) (rafS mmS qsaS : Bool) (prm2 : Bool) (elems : List Elem) :
    (t ∈ observerCallbackTargets entries ↔
      ∃ en, en ∈ entries ∧ en.target = t ∧ en.isIntersecting = true ∧
        classContains t.classes CONFIG.ANIMATION_CLASS = false) ∧
    (∀ p ∈ observerCallback prm closestOf entries,
      ∃ e a lg, p.2 = Except.ok (e, a, lg) ∧
        e.style.opacity = "1" ∧ e.style.transform = "translateY(0)" ∧
        classContains e.classes CONFIG.ANIMATION_CLASS = true) ∧
    (∃ r, initScrollAnimations ⟨true, rafS, mmS, qsaS⟩ prm2 elems none = Except.ok r ∧
      r.observer = some { rootMargin := "0px", threshold := 7 / 10 }) := by
  refine ⟨?_, ?_, ⟨_, rfl, rfl⟩⟩
  · simp only [observerCallbackTargets, List.mem_map, List.mem_filter,
      Bool.and_eq_true, Bool.not_eq_true']
    constructor
    · rintro ⟨en, ⟨hen, hint, hcls⟩, rfl⟩
      exact ⟨en, hen, rfl, hint, hcls⟩
    · rintro ⟨en, hen, rfl, hint, hcls⟩
      exact ⟨en, ⟨hen, hint, hcls⟩, rfl⟩
  · intro p hp
    rcases List.mem_map.mp hp with ⟨t', _, rfl⟩
    cases prm with
    | true =>
        exact ⟨reveal t', RevealAction.immediate, [], rfl, rfl, rfl,
          classContains_classAdd_self _ _⟩
    | false =>
        cases hc : closestOf t' with
        | none =>
            exact ⟨reveal t', RevealAction.immediate, [],
              by simp [handleIntersection, jsTry, hc], rfl, rfl,
              classContains_classAdd_self _ _⟩
        | some sib =>
            exact ⟨reveal t',
              RevealAction.delayed (jsIndexOf sib t' * CONFIG.STAGGER_DELAY), [],
              by simp [handleIntersection, jsTry, hc], rfl, rfl,
              classContains_classAdd_self _ _⟩

/-- Witness for C4 with one intersecting entry and one already-revealed one. -/
theorem observerCallback_reveals_witness :
    ({ eid := 1 } : Elem) ∈ observerCallbackTargets
      [{ target := { eid := 1 }, isIntersecting := true },
        { target := { eid := 2, classes := ["reveal-active"] }, isIntersecting := true },
        { target := { eid := 3 }, isIntersecting := false }] ∧
    ({ eid := 2, classes := ["reveal-active"] } : Elem) ∉ observerCallbackTargets
      [{ target := { eid := 1 }, isIntersecting := true },
        { target := { eid := 2, classes := ["reveal-active"] }, isIntersecting := true },
        { target := { eid := 3 }, isIntersecting := false }] := by
  have h := observerCallback_reveals false (fun _ => none)
    [{ target := { eid := 1 }, isIntersecting := true },
      { target := { eid := 2, classes := ["reveal-active"] }, isIntersecting := true },
      { target := { eid := 3 }, isIntersecting := false }]
    { eid := 1 } true true true false []
  refine ⟨h.1.mpr ⟨{ target := { eid := 1 }, isIntersecting := true }, by decide, rfl,
    rfl, by decide⟩, ?_⟩
  have h2 := observerCallback_reveals false (fun _ => none)
    [{ target := { eid := 1 }, isIntersecting := true },
      { target := { eid := 2, classes := ["reveal-active"] }, isIntersecting := true },
      { target := { eid := 3 }, isIntersecting := false }]
    { eid := 2, classes := ["reveal-active"] } true true true false []
  intro hmem
  rcases h2.1.mp hmem with ⟨en, _, _, _, hcls⟩
  exact absurd hcls (by decide)

/-- Claim C3: on an Escape keydown with the menu expanded, the handler sets
aria-expanded to false, removes the active and mobile-nav-open classes and
focuses the hamburger; when aria-expanded is not the string true it changes
nothing. -/
theorem escape_closes_menu (s : MenuState) :
    (s.ariaExpanded = "true" →
      (menuKeydown "Escape" s).ariaExpanded = "false" ∧
      classContains (menuKeydown "Escape" s).buttonClasses "active" = false ∧
      classContains (menuKeydown "Escape" s).navClasses "mobile-nav-open" = false ∧
      (menuKeydown "Escape" s).focusedHamburger = true ∧
      (menuKeydown "Escape" s).buttonClasses = classRemove s.buttonClasses "active" ∧
      (menuKeydown "Escape" s).navClasses = classRemove s.navClasses "mobile-nav-open") ∧
    (¬s.ariaExpanded = "true" → menuKeydown "Escape" s = s) := by
  constructor
  · intro h
    simp [menuKeydown, h, classContains_classRemove_self]
  · intro h
    simp [menuKeydown, h]

/-- Witness for C3: an open menu closes, a closed menu is untouched. -/
theorem escape_closes_menu_witness :
    menuKeydown "Escape" ⟨"true", ["active"], ["mobile-nav-open"], false⟩ =
      ⟨"false", [], [], true⟩ ∧
    menuKeydown "Escape" ⟨"false", [], [], false⟩ = ⟨"false", [], [], false⟩ := by
  have h1 := (escape_closes_menu ⟨"true", ["active"], ["mobile-nav-open"], false⟩).1 rfl
  have h2 := (escape_closes_menu ⟨"false", [], [], false⟩).2 (by decide)
  refine ⟨?_, h2⟩
  have hb := h1.2.2.2.2.1
  have hn := h1.2.2.2.2.2
  have ha := h1.1
  have hf := h1.2.2.2.1
  cases he : menuKeydown "Escape" ⟨"true", ["active"], ["mobile-nav-open"], false⟩
  rw [he] at ha hb hn hf
  simp only at ha hb hn hf
  subst ha hf
  rw [hb, hn]
  decide

/-- Claim C10: the initial state set by initMobileMenu satisfies the
aria-expanded/active/mobile-nav-open consistency invariant, and every
installed handler preserves it. -/
theorem mobileMenu_invariant
    (hb nav : Elem)
    (hhb : classContains hb.classes "active" = false)
    (hnav : classContains nav.classes "mobile-nav-open" = false) :
    menuInvariant (menuInitState hb nav) ∧
    ∀ s, menuInvariant s → ∀ e, menuInvariant (menuStep s e) := by
  constructor
  · refine ⟨?_, ?_⟩ <;> constructor
    · intro h
      exact absurd (show ("false" : String) = "true" from h) (by decide)
    · intro h
      rw [show classContains (menuInitState hb nav).buttonClasses "active" =
        classContains hb.classes "active" from rfl, hhb] at h
      cases h
    · intro h
      exact absurd (show ("false" : String) = "true" from h) (by decide)
    · intro h
      rw [show classContains (menuInitState hb nav).navClasses "mobile-nav-open" =
        classContains nav.classes "mobile-nav-open" from rfl, hnav] at h
      cases h
  · rintro s ⟨h1, h2⟩ e
    cases e with
    | hamburger =>
      by_cases hexp : s.ariaExpanded = "true"
      · have hcb := h1.mp hexp
        have hcn := h2.mp hexp
        constructor <;>
          simp [menuStep, hamburgerClick, hexp, classContains_classToggle_self, hcb, hcn]
      · have hcb : classContains s.buttonClasses "active" = false := by
          cases hc : classContains s.buttonClasses "active"
          · rfl
          · exact absurd (h1.mpr hc) hexp
        have hcn : classContains s.navClasses "mobile-nav-open" = false := by
          cases hc : classContains s.navClasses "mobile-nav-open"
          · rfl
          · exact absurd (h2.mpr hc) hexp
        constructor <;>
          simp [menuStep, hamburgerClick, hexp, classContains_classToggle_self, hcb, hcn]
    | keydown k =>
      by_cases hk : k = "Escape"
      · by_cases hexp : s.ariaExpanded = "true"
        · constructor <;>
            simp [menuStep, menuKeydown, hk, hexp, classContains_classRemove_self]
        · have : menuStep s (MenuEvent.keydown k) = s := by
            simp [menuStep, menuKeydown, hk, hexp]
          rw [this]
          exact ⟨h1, h2⟩
      · have : menuStep s (MenuEvent.keydown k) = s := by
          simp [menuStep, menuKeydown, hk]
        rw [this]
        exact ⟨h1, h2⟩
    | navLink =>
      constructor <;>
        simp [menuStep, navLinkClick, classContains_classRemove_self]

/-- Witness for C10: the invariant holds after init and after a click on a
freshly set up menu. -/
theorem mobileMenu_invariant_witness :
    menuInvariant (menuInitState { eid := 7 } { eid := 8 }) ∧
    menuInvariant (menuStep (menuInitState { eid := 7 } { eid := 8 }) MenuEvent.hamburger) := by
  have h := mobileMenu_invariant { eid := 7 } { eid := 8 } (by decide) (by decide)
  exact ⟨h.1, h.2 _ h.1 MenuEvent.hamburger⟩

/-- Claim C7: on a container with focusable content, trapFocus installs a
handler that wraps Tab from the last focusable element to the first and
Shift+Tab from the first to the last, preventing the default, and leaves
every other keydown unchanged; on a container without focusable content it
installs nothing. -/
theorem trapFocus_wraps
    (element : List FElem) :
    (∀ f rest, element.filter focusableSelector = f :: rest →
      ∃ handler, trapFocus element none = Except.ok (some handler, []) ∧
        handler.firstElement = f ∧
        handler.lastElement = (f :: rest).getLast (List.cons_ne_nil f rest) ∧
        trapKeydown handler "Tab" false handler.lastElement.fid =
          { defaultPrevented := true, focusMoved := some handler.firstElement.fid } ∧
        trapKeydown handler "Tab" true handler.firstElement.fid =
          { defaultPrevented := true, focusMoved := some handler.lastElement.fid } ∧
        (∀ key shiftKey active, ¬key = "Tab" →
          trapKeydown handler key shiftKey active = tabNoChange) ∧
        (∀ active, ¬active = handler.lastElement.fid →
          trapKeydown handler "Tab" false active = tabNoChange) ∧
        (∀ active, ¬active = handler.firstElement.fid →
          trapKeydown handler "Tab" true active = tabNoChange)) ∧
    (element.filter focusableSelector = [] →
      trapFocus element none = Except.ok (none, [])) := by
  constructor
  · intro f rest hfoc
    refine ⟨{ firstElement := f, lastElement := (f :: rest).getLast (List.cons_ne_nil f rest) },
      ?_, rfl, rfl, ?_, ?_, ?_, ?_, ?_⟩
    · simp [trapFocus, jsTry, hfoc]
    · simp [trapKeydown]
    · simp [trapKeydown]
    · intro key shiftKey active hk
      simp [trapKeydown, hk]
    · intro active ha
      simp [trapKeydown, ha]
    · intro active ha
      simp [trapKeydown, ha]
  · intro hfoc
    simp [trapFocus, jsTry, hfoc]

/-- Witness for C7: a nav with a link and a button wraps focus from fid 3
back to fid 1 and vice versa; a container without focusables installs
nothing. -/
theorem trapFocus_wraps_witness :
    trapFocus [{ fid := 1, tag := "a", href := some "#flavors" },
        { fid := 2, tag := "span" }, { fid := 3, tag := "button" }] none =
      Except.ok (some ⟨⟨1, "a", some "#flavors", false⟩, ⟨3, "button", none, false⟩⟩, []) ∧
    trapKeydown ⟨⟨1, "a", some "#flavors", false⟩, ⟨3, "button", none, false⟩⟩ "Tab" false 3 =
      { defaultPrevented := true, focusMoved := some 1 } ∧
    trapKeydown ⟨⟨1, "a", some "#flavors", false⟩, ⟨3, "button", none, false⟩⟩ "Tab" true 1 =
      { defaultPrevented := true, focusMoved := some 3 } ∧
    trapKeydown ⟨⟨1, "a", some "#flavors", false⟩, ⟨3, "button", none, false⟩⟩ "Enter" false 3 =
      tabNoChange ∧
    trapFocus [{ fid := 2, tag := "span" }] none = Except.ok (none, []) := by
  have h := (trapFocus_wraps [{ fid := 1, tag := "a", href := some "#flavors" },
      { fid := 2, tag := "span" }, { fid := 3, tag := "button" }]).1
    { fid := 1, tag := "a", href := some "#flavors" } [{ fid := 3, tag := "button" }] (by decide)
  obtain ⟨⟨af, bf⟩, hinst, hfirst, hlast, htab, hshift, hother, _, _⟩ := h
  have haf : af = ⟨1, "a", some "#flavors", false⟩ := hfirst
  have hbf : bf = ⟨3, "button", none, false⟩ := hlast
  subst haf
  subst hbf
  have h2 := (trapFocus_wraps [{ fid := 2, tag := "span" }]).2 (by decide)
  exact ⟨hinst, htab, hshift, hother "Enter" false 3 (by decide), h2⟩

/-- Claim C8: a click on an anchor with a missing href, a bare hash or an
unknown id changes nothing and leaves the default; a click whose target
exists prevents the default, scrolls with auto under reduced motion and
smooth otherwise, focuses the target and pushes the href on the history. -/
theorem smoothScroll_updates_history
    (prm : Bool) (docIds : List String) (h : String) :
    smoothScrollClick prm docIds true true none none = clickNoChange ∧
    smoothScrollClick prm docIds true true (some "#") none = clickNoChange ∧
    (docIds.contains (h.drop 1) = false →
      smoothScrollClick prm docIds true true (some h) none = clickNoChange) ∧
    (1 < h.length → docIds.contains (h.drop 1) = true →
      smoothScrollClick prm docIds true true (some h) none =
        { defaultPrevented := true
          scrolledTo := some (h.drop 1,
            if prm then ScrollBehavior.auto else ScrollBehavior.smooth)
          focused := some (h.drop 1)
          pushedUrl := some h
          locationHash := none
          log := [] }) := by
  refine ⟨rfl, by simp [smoothScrollClick], ?_, ?_⟩
  · intro hct
    by_cases hb : h = "#" ∨ h.length ≤ 1
    · simp [smoothScrollClick, hb]
    · have hct2 : h.drop 1 ∉ docIds := by simpa using hct
      simp [smoothScrollClick, hb, hct2]
  · intro hlen hct
    have hb : ¬(h = "#" ∨ h.length ≤ 1) := by
      rintro (rfl | hle)
      · exact absurd hlen (by decide)
      · omega
    have hct2 : h.drop 1 ∈ docIds := by simpa using hct
    simp [smoothScrollClick, hb, hct2, jsTry]

/-- Witness for C8: a click on a link to an existing section and one to a
missing section. -/
theorem smoothScroll_updates_history_witness :
    smoothScrollClick false ["flavors"] true true (some "#flavors") none =
      { defaultPrevented := true
        scrolledTo := some ("flavors", ScrollBehavior.smooth)
        focused := some "flavors"
        pushedUrl := some "#flavors"
        locationHash := none
        log := [] } ∧
    smoothScrollClick false ["flavors"] true true (some "#story") none = clickNoChange := by
  have h1 := (smoothScroll_updates_history false ["flavors"] "#flavors").2.2.2
    (by decide) (by decide)
  have h2 := (smoothScroll_updates_history false ["flavors"] "#story").2.2.1 (by decide)
  exact ⟨h1.trans (by decide), h2⟩

/-- Flattening singleton lists gives back the original list. -/
theorem flatten_map_singletonList (l : List Char) : (l.map (fun c => [c])).flatten = l := by
  induction l with
  | nil => rfl
  | cons a l ih => simp [ih]

/-- Joining the singleton strings of a character list rebuilds the string. -/
theorem join_map_singleton (l : List Char) :
    String.join (l.map String.singleton) = String.mk l := by
  apply String.ext
  simp only [String.data_join, List.map_map]
  have hcomp : (String.data ∘ String.singleton) = fun c => [c] := by
    funext c
    rfl
  rw [hcomp, flatten_map_singletonList]

/-- Claim C9: with motion allowed, initKineticTypography rebuilds the hero
heading as one span per character, in order; the spans text concatenates
back to the original text, the aria-label keeps the original text, and every
span is aria-hidden. -/
theorem kineticTypography_preserves_text (hd : Heading) :
    initKineticTypography false (some hd) none =
      Except.ok (some (kineticHeading hd.textContent), []) ∧
    (kineticHeading hd.textContent).children.length = hd.textContent.length ∧
    (kineticHeading hd.textContent).children.map (fun sp => sp.textContent) =
      hd.textContent.data.map String.singleton ∧
    String.join ((kineticHeading hd.textContent).children.map (fun sp => sp.textContent)) =
      hd.textContent ∧
    (kineticHeading hd.textContent).ariaLabel = some hd.textContent ∧
    ∀ sp ∈ (kineticHeading hd.textContent).children, sp.ariaHidden = "true" := by
  have hmap : (kineticHeading hd.textContent).children.map (fun sp => sp.textContent) =
      hd.textContent.data.map String.singleton := by
    simp only [kineticHeading, List.map_map]
    rfl
  refine ⟨rfl, ?_, hmap, ?_, rfl, ?_⟩
  · rw [show (kineticHeading hd.textContent).children =
      hd.textContent.data.map mkLetterSpan from rfl, List.length_map]
    rfl
  · rw [hmap, join_map_singleton]
  · intro sp hsp
    rcases List.mem_map.mp hsp with ⟨c, _, rfl⟩
    rfl

/-- Witness for C9 on the heading text Hi there. -/
theorem kineticTypography_preserves_text_witness :
    initKineticTypography false (some { textContent := "Hi there" }) none =
      Except.ok (some (kineticHeading "Hi there"), []) ∧
    (kineticHeading "Hi there").children.length = 8 ∧
    String.join ((kineticHeading "Hi there").children.map (fun sp => sp.textContent)) =
      "Hi there" ∧
    (kineticHeading "Hi there").ariaLabel = some "Hi there" ∧
    (mkLetterSpan 'H').ariaHidden = "true" := by
  have h := kineticTypography_preserves_text { textContent := "Hi there" }
  refine ⟨h.1, h.2.1, h.2.2.2.1, h.2.2.2.2.1, ?_⟩
  exact h.2.2.2.2.2 (mkLetterSpan 'H')
    (List.mem_map.mpr ⟨'H', by decide, rfl⟩)

/-! Helper facts: each feature function leaves with a normal return. -/

theorem detectReducedMotion_ok (support : BrowserSupport) (media : Bool) (fail : Option String) :
    ∃ r, detectReducedMotion support media fail = Except.ok r := by
  unfold detectReducedMotion
  cases support.matchMedia <;> cases fail <;> simp [jsTry]

theorem initScrollAnimations_ok (support : BrowserSupport) (prm : Bool)
    (elems : List Elem) (fail : Option String) :
    ∃ r, initScrollAnimations support prm elems fail = Except.ok r := by
  unfold initScrollAnimations
  cases support.intersectionObserver <;> cases fail <;> simp [jsTry]

theorem initKineticTypography_ok (prm : Bool) (hero : Option Heading) (fail : Option String) :
    ∃ r, initKineticTypography prm hero fail = Except.ok r := by
  unfold initKineticTypography
  cases prm <;> cases fail <;> cases hero <;> simp [jsTry]

theorem initSmoothScroll_ok (links : List (Option String)) (fail : Option String) :
    ∃ r, initSmoothScroll links fail = Except.ok r := by
  unfold initSmoothScroll
  cases fail <;> simp [jsTry]

theorem initButtonMorphing_ok (buttons : List Elem) (fail : Option String) :
    ∃ r, initButtonMorphing buttons fail = Except.ok r := by
  unfold initButtonMorphing
  cases fail <;> simp [jsTry]

theorem initMobileMenu_ok (hb nav : Option Elem) (fail : Option String) :
    ∃ r, initMobileMenu hb nav fail = Except.ok r := by
  unfold initMobileMenu
  cases fail <;> cases hb <;> cases nav <;> simp [jsTry]

theorem trapFocus_ok (container : List FElem) (fail : Option String) :
    ∃ r, trapFocus container fail = Except.ok r := by
  unfold trapFocus
  cases fail with
  | some m => simp [jsTry]
  | none =>
    cases hfoc : container.filter focusableSelector <;> simp [jsTry, hfoc]

theorem handleIntersection_ok (prm : Bool) (closest : Option (List Elem))
    (target : Elem) (fail : Option String) :
    ∃ r, handleIntersection prm closest target fail = Except.ok r := by
  unfold handleIntersection
  cases prm <;> cases fail <;> cases closest <;> simp [jsTry]

/-- Claim C5: every feature function catches the exception its body raises,
logs it through console.error and returns normally, so init always runs the
whole feature list regardless of which features fail. -/
theorem features_catch_log_and_return
    (support : BrowserSupport) (media prm : Bool) (elems : List Elem)
    (hero : Option Heading) (links : List (Option String)) (buttons : List Elem)
    (hb nav : Option Elem) (container : List FElem)
    (closest : Option (List Elem)) (target : Elem)
    (page : PageInputs) (cfg : FailConfig) (fail : Option String) (m : String)
    (hmedia : support.matchMedia = true) (hio : support.intersectionObserver = true)
    (hq : support.querySelectorAll = true) :
    (∃ r, detectReducedMotion support media fail = Except.ok r) ∧
    (∀ r, detectReducedMotion support media (some m) = Except.ok r →
      LogEntry.error ("Error detecting reduced motion preference: " ++ m) ∈ r.log) ∧
    (∃ r, initScrollAnimations support prm elems fail = Except.ok r) ∧
    (∀ r, initScrollAnimations support prm elems (some m) = Except.ok r →
      LogEntry.error ("Error initializing scroll animations: " ++ m) ∈ r.log) ∧
    (∃ r, initKineticTypography prm hero fail = Except.ok r) ∧
    (∀ r, initKineticTypography false hero (some m) = Except.ok r →
      LogEntry.error ("Error initializing kinetic typography: " ++ m) ∈ r.2) ∧
    (∃ r, initSmoothScroll links fail = Except.ok r) ∧
    (∀ r, initSmoothScroll links (some m) = Except.ok r →
      LogEntry.error ("Error initializing smooth scroll: " ++ m) ∈ r.2) ∧
    (∃ r, initButtonMorphing buttons fail = Except.ok r) ∧
    (∀ r, initButtonMorphing buttons (some m) = Except.ok r →
      LogEntry.error ("Error initializing button morphing: " ++ m) ∈ r.2) ∧
    (∃ r, initMobileMenu hb nav fail = Except.ok r) ∧
    (∀ r, initMobileMenu hb nav (some m) = Except.ok r →
      LogEntry.error ("Error initializing mobile menu: " ++ m) ∈ r.2) ∧
    (∃ r, trapFocus container fail = Except.ok r) ∧
    (∀ r, trapFocus container (some m) = Except.ok r →
      LogEntry.error ("Error trapping focus: " ++ m) ∈ r.2) ∧
    (∃ r, handleIntersection prm closest target fail = Except.ok r) ∧
    (∀ r, handleIntersection false closest target (some m) = Except.ok r →
      LogEntry.error ("Error handling intersection: " ++ m) ∈ r.2.2) ∧
    (∃ logs, init support page cfg = Except.ok (initFeatureOrder, logs)) := by
  refine ⟨detectReducedMotion_ok support media fail, ?_,
    initScrollAnimations_ok support prm elems fail, ?_,
    initKineticTypography_ok prm hero fail, ?_,
    initSmoothScroll_ok links fail, ?_,
    initButtonMorphing_ok buttons fail, ?_,
    initMobileMenu_ok hb nav fail, ?_,
    trapFocus_ok container fail, ?_,
    handleIntersection_ok prm closest target fail, ?_, ?_⟩
  · intro r hr
    simp only [detectReducedMotion, hmedia, Bool.not_true, Bool.false_eq_true, if_false,
      jsTry, Except.ok.injEq] at hr
    simp [← hr]
  · intro r hr
    simp only [initScrollAnimations, hio, Bool.not_true, Bool.false_eq_true, if_false,
      jsTry, Except.ok.injEq] at hr
    simp [← hr]
  · intro r hr
    simp only [initKineticTypography, Bool.false_eq_true, if_false,
      jsTry, Except.ok.injEq] at hr
    simp [← hr]
  · intro r hr
    simp only [initSmoothScroll, jsTry, Except.ok.injEq] at hr
    simp [← hr]
  · intro r hr
    simp only [initButtonMorphing, jsTry, Except.ok.injEq] at hr
    simp [← hr]
  · intro r hr
    simp only [initMobileMenu, jsTry, Except.ok.injEq] at hr
    simp [← hr]
  · intro r hr
    simp only [trapFocus, jsTry, Except.ok.injEq] at hr
    simp [← hr]
  · intro r hr
    simp only [handleIntersection, Bool.false_eq_true, if_false,
      jsTry, Except.ok.injEq] at hr
    simp [← hr]
  · obtain ⟨r1, e1⟩ := detectReducedMotion_ok support page.mediaMatches cfg.mmFail
    obtain ⟨r2, e2⟩ := initScrollAnimations_ok support r1.prefersReducedMotion
      page.animatedElements cfg.observerFail
    obtain ⟨r3, e3⟩ := initKineticTypography_ok r1.prefersReducedMotion
      page.heroTitle cfg.kineticFail
    obtain ⟨r4, e4⟩ := initSmoothScroll_ok page.anchorLinks cfg.smoothFail
    obtain ⟨r5, e5⟩ := initButtonMorphing_ok page.ctaButtons cfg.buttonFail
    obtain ⟨r6, e6⟩ := initMobileMenu_ok page.hamburgerButton page.mobileNav cfg.menuFail
    refine ⟨r1.log ++ r2.log ++ r3.2 ++ r4.2 ++ r5.2 ++ r6.2, ?_⟩
    simp [init, hq, e1, e2, e3, e4, e5, e6, bind, Except.bind]

/-- Witness for C5: with every feature failing, init still runs the whole
feature list, and the failing reduced-motion detection logs its error. -/
theorem features_catch_log_and_return_witness :
    (init ⟨true, true, true, true⟩ ⟨false, [], none, [], [], none, none⟩
        ⟨some "a", some "a", some "a", some "a", some "a", some "a"⟩).map
      (fun p => p.1) = Except.ok initFeatureOrder ∧
    LogEntry.error ("Error detecting reduced motion preference: " ++ "a") ∈
      (⟨false, [], [LogEntry.error ("Error detecting reduced motion preference: " ++ "a")]⟩ :
        ReducedMotionResult).log := by
  have h := features_catch_log_and_return ⟨true, true, true, true⟩ false false [] none [] []
    none none [] none { eid := 0 } ⟨false, [], none, [], [], none, none⟩
    ⟨some "a", some "a", some "a", some "a", some "a", some "a"⟩ (some "a") "a" rfl rfl rfl
  obtain ⟨c1, c2, c3, c4, c5, c6, c7, c8, c9, c10, c11, c12, c13, c14, c15, c16, c17⟩ := h
  obtain ⟨logs, hl⟩ := c17
  rw [hl]
  exact ⟨rfl, c2 _ rfl⟩

end Landing
